import Mathlib

/-
Shallow embedding of the configuration model and input-event resolution
engine of the contour terminal emulator front end, as found in the
repository header (namespace contour::config).  The match-mode evaluator
(helper::testMatchMode), the binding resolver (apply), the binding
accumulator (YAMLConfigReader::appendOrCreateBinding), the built-in
default binding table (defaultInputMappings), the profiles-map loader,
the Writer indentation machinery and the WindowMargins scaling operator
are translated here; the vtbackend value types (MatchModes, Modifiers,
InputBinding) and the bodies of YAMLConfigReader::load and the Writer
entry points live outside the provided sources and are modelled from the
specification where noted.
-/

namespace ContourConfig

/-- Tri-state of one match-mode flag inside a filter.
Modelled from the spec: vtbackend::MatchModes::Status is not under the
provided sources; the spec assigns each flag one of Enabled, Disabled,
Any. -/
inductive Status where
  | Enabled
  | Disabled
  | Any
deriving DecidableEq, Repr

/-- The seven terminal match-mode flags.
Modelled from the spec: vtbackend::MatchModes::Flag is not under the
provided sources; the spec fixes exactly these seven named flags, each
one a distinct bit of the actual-mode byte. -/
inductive Flag where
  | AlternateScreen
  | AppCursor
  | AppKeypad
  | Select
  | Insert
  | Search
  | Trace
deriving DecidableEq, Repr

/-- Bit mask of a flag inside the actual-mode-flags byte.
Modelled from the spec: the concrete bit assignment is not under the
provided sources; each of the seven flags occupies its own bit. -/
def flagMask : Flag → Nat
  | .AlternateScreen => 1
  | .AppCursor => 2
  | .AppKeypad => 4
  | .Select => 8
  | .Insert => 16
  | .Search => 32
  | .Trace => 64

/-- A match-mode filter: one tri-state per flag.
Modelled from the spec: vtbackend::MatchModes is not under the provided
sources; a filter assigns each of the seven flags one of three states
independently, and the default-constructed filter leaves every flag at
Any. -/
structure MatchModes where
  alternateScreen : Status := .Any
  appCursor : Status := .Any
  appKeypad : Status := .Any
  select : Status := .Any
  insert : Status := .Any
  search : Status := .Any
  trace : Status := .Any
deriving DecidableEq, Repr

/-- Filter state of one flag (MatchModes::status in vtbackend). -/
def MatchModes.status (m : MatchModes) : Flag → Status
  | .AlternateScreen => m.alternateScreen
  | .AppCursor => m.appCursor
  | .AppKeypad => m.appKeypad
  | .Select => m.select
  | .Insert => m.insert
  | .Search => m.search
  | .Trace => m.trace

/-- MatchModes::enable: set one flag of the filter to Enabled. -/
def MatchModes.enable (m : MatchModes) : Flag → MatchModes
  | .AlternateScreen => { m with alternateScreen := .Enabled }
  | .AppCursor => { m with appCursor := .Enabled }
  | .AppKeypad => { m with appKeypad := .Enabled }
  | .Select => { m with select := .Enabled }
  | .Insert => { m with insert := .Enabled }
  | .Search => { m with search := .Enabled }
  | .Trace => { m with trace := .Enabled }

/-- MatchModes::disable: set one flag of the filter to Disabled. -/
def MatchModes.disable (m : MatchModes) : Flag → MatchModes
  | .AlternateScreen => { m with alternateScreen := .Disabled }
  | .AppCursor => { m with appCursor := .Disabled }
  | .AppKeypad => { m with appKeypad := .Disabled }
  | .Select => { m with select := .Disabled }
  | .Insert => { m with insert := .Disabled }
  | .Search => { m with search := .Disabled }
  | .Trace => { m with trace := .Disabled }

/-- A set of keyboard modifiers.
Modelled from the spec: vtbackend::Modifiers is not under the provided
sources; it is a plain set of the modifier keys, compared by exact set
equality. -/
structure Modifiers where
  shift : Bool := false
  alt : Bool := false
  control : Bool := false
  super : Bool := false
deriving DecidableEq, Repr

def Modifiers.none : Modifiers := {}

def Modifiers.shiftOnly : Modifiers := { shift := true }

def Modifiers.altOnly : Modifiers := { alt := true }

def Modifiers.controlOnly : Modifiers := { control := true }

def Modifiers.shiftControl : Modifiers := { shift := true, control := true }

def Modifiers.altControl : Modifiers := { alt := true, control := true }

/-- helper::testMatchMode (single-flag overload): compare the filter
state of one flag against the corresponding bit of the actual mode
flags.  Enabled requires the bit set, Disabled requires it clear, Any
always passes. -/
def testMatchModeFlag (actualModeFlags : Nat) (expected : MatchModes) (testFlag : Flag) : Bool :=
  match expected.status testFlag with
  | .Enabled => decide (Nat.land actualModeFlags (flagMask testFlag) ≠ 0)
  | .Disabled => decide (Nat.land actualModeFlags (flagMask testFlag) = 0)
  | .Any => true

/-- helper::testMatchMode: conjunction of the seven per-flag checks, in
source order. -/
def testMatchMode (actualModeFlags : Nat) (expected : MatchModes) : Bool :=
  testMatchModeFlag actualModeFlags expected .AlternateScreen
    && testMatchModeFlag actualModeFlags expected .AppCursor
    && testMatchModeFlag actualModeFlags expected .AppKeypad
    && testMatchModeFlag actualModeFlags expected .Select
    && testMatchModeFlag actualModeFlags expected .Insert
    && testMatchModeFlag actualModeFlags expected .Search
    && testMatchModeFlag actualModeFlags expected .Trace

/-- vtbackend::InputBinding: one binding record of (match-mode filter,
modifier set, trigger value, bound payload).
Modelled from the spec: the struct itself is not under the provided
sources, but its four fields are written out in every aggregate
initialization of the default table. -/
structure InputBinding (I : Type) (B : Type) where
  modes : MatchModes
  modifiers : Modifiers
  input : I
  binding : B
deriving DecidableEq, Repr

/-- The application actions referenced by the built-in default binding
table (contour::actions); an open enumeration, only the constructors the
default table uses are carried. -/
inductive Action where
  | ToggleFullscreen
  | CancelSelection
  | ScrollOneDown
  | ScrollToBottom
  | ScrollToTop
  | ScrollPageDown
  | ScrollPageUp
  | ScrollOneUp
  | FocusNextSearchMatch
  | FocusPreviousSearchMatch
  | SwitchToTabLeft
  | SwitchToTabRight
  | DecreaseFontSize
  | IncreaseFontSize
  | NewTerminal
  | PasteClipboard (strip : Bool)
  | ScreenshotVT
  | ResetFontSize
  | CreateNewTab
  | SwitchToTab (position : Nat)
  | CopySelection
  | OpenConfiguration
  | ViNormalMode
  | Quit
  | ScrollMarkUp
  | ScrollMarkDown
  | OpenFileManager
  | ToggleStatusLine
  | SearchReverse
  | NoSearchHighlight
  | FollowHyperlink
  | PasteSelection
  | ScrollDown
  | ScrollUp
  | DecreaseOpacity
  | IncreaseOpacity
deriving DecidableEq, Repr, Inhabited

def ActionList : Type := List Action
deriving instance DecidableEq, Repr for ActionList

/-- contour::config::apply: scan the binding list in stored order and
return the payload of the first record whose modifier set and trigger
equal the query and whose filter matches the actual mode flags; none
when the scan exhausts. -/
def apply {I : Type} [DecidableEq I] (mappings : List (InputBinding I (List Action)))
    (input : I) (modifiers : Modifiers) (actualModeFlags : Nat) : Option (List Action) :=
  match mappings with
  | [] => none
  | mapping :: rest =>
      if mapping.modifiers = modifiers ∧ mapping.input = input
          ∧ testMatchMode actualModeFlags mapping.modes = true then
        some mapping.binding
      else
        apply rest input modifiers actualModeFlags

/-- vtbackend match on an InputBinding.
Modelled from the spec: the match helper used by appendOrCreateBinding
is not under the provided sources; per the spec it recognises a record
with an identical (filter, modifiers, trigger) triple. -/
def bindingMatches {I B : Type} [DecidableEq I] (binding : InputBinding I B)
    (modes : MatchModes) (modifier : Modifiers) (input : I) : Bool :=
  decide (binding.modes = modes) && decide (binding.modifiers = modifier)
    && decide (binding.input = input)

/-- YAMLConfigReader::appendOrCreateBinding: if some record matches the
(modes, modifier, input) triple, append the action to the first such
record's action list; otherwise append a fresh record at the end. -/
def appendOrCreateBinding {I : Type} [DecidableEq I]
    (bindings : List (InputBinding I (List Action))) (modes : MatchModes)
    (modifier : Modifiers) (input : I) (action : Action) :
    List (InputBinding I (List Action)) :=
  match bindings with
  | [] => [⟨modes, modifier, input, [action]⟩]
  | b :: rest =>
      if bindingMatches b modes modifier input then
        { b with binding := b.binding ++ [action] } :: rest
      else
        b :: appendOrCreateBinding rest modes modifier input action

/-- Named keys referenced by the built-in key binding table
(vtbackend::Key; only the constructors the default table uses are
carried). -/
inductive Key where
  | Enter
  | Escape
  | DownArrow
  | UpArrow
  | LeftArrow
  | RightArrow
  | Home
  | End
  | PageUp
  | PageDown
  | F3
deriving DecidableEq, Repr

/-- Mouse buttons (vtbackend::MouseButton; only the constructors the
default table uses are carried). -/
inductive MouseButton where
  | Left
  | Middle
  | Right
  | WheelUp
  | WheelDown
deriving DecidableEq, Repr

def KeyInputMapping : Type := InputBinding Key (List Action)
deriving instance DecidableEq, Repr for KeyInputMapping

def CharInputMapping : Type := InputBinding Char (List Action)
deriving instance DecidableEq, Repr for CharInputMapping

def MouseInputMapping : Type := InputBinding MouseButton (List Action)
deriving instance DecidableEq, Repr for MouseInputMapping

/-- contour::config::InputMappings: the three ordered binding lists. -/
structure InputMappings where
  keyMappings : List KeyInputMapping
  charMappings : List CharInputMapping
  mouseMappings : List MouseInputMapping
deriving DecidableEq, Repr

/-- Filter built in the default table by enabling Select and Insert on a
default-constructed MatchModes. -/
def selectInsertModes : MatchModes :=
  (MatchModes.enable {} .Select).enable .Insert

/-- Filter built in the default table by enabling Insert on a
default-constructed MatchModes. -/
def insertModes : MatchModes :=
  MatchModes.enable {} .Insert

/-- Filter built in the default table by disabling AlternateScreen on a
default-constructed MatchModes. -/
def notAlternateScreenModes : MatchModes :=
  MatchModes.disable {} .AlternateScreen

/-- The built-in default key binding list (defaultInputMappings
.keyMappings), in source order. -/
def defaultKeyMappings : List KeyInputMapping :=
  [ ⟨{}, Modifiers.altOnly, Key.Enter, [Action.ToggleFullscreen]⟩,
    ⟨{}, Modifiers.none, Key.Escape, [Action.CancelSelection]⟩,
    ⟨{}, Modifiers.shiftOnly, Key.DownArrow, [Action.ScrollOneDown]⟩,
    ⟨{}, Modifiers.shiftOnly, Key.End, [Action.ScrollToBottom]⟩,
    ⟨{}, Modifiers.shiftOnly, Key.Home, [Action.ScrollToTop]⟩,
    ⟨{}, Modifiers.shiftOnly, Key.PageDown, [Action.ScrollPageDown]⟩,
    ⟨{}, Modifiers.shiftOnly, Key.PageUp, [Action.ScrollPageUp]⟩,
    ⟨{}, Modifiers.shiftOnly, Key.UpArrow, [Action.ScrollOneUp]⟩,
    ⟨{}, Modifiers.none, Key.F3, [Action.FocusNextSearchMatch]⟩,
    ⟨{}, Modifiers.shiftOnly, Key.F3, [Action.FocusPreviousSearchMatch]⟩,
    ⟨{}, Modifiers.shiftOnly, Key.LeftArrow, [Action.SwitchToTabLeft]⟩,
    ⟨{}, Modifiers.shiftOnly, Key.RightArrow, [Action.SwitchToTabRight]⟩ ]

/-- The built-in default character binding list (defaultInputMappings
.charMappings), in source order. -/
def defaultCharMappings : List CharInputMapping :=
  [ ⟨{}, Modifiers.shiftControl, '-', [Action.DecreaseFontSize]⟩,
    ⟨{}, Modifiers.shiftControl, '_', [Action.DecreaseFontSize]⟩,
    ⟨{}, Modifiers.shiftControl, 'N', [Action.NewTerminal]⟩,
    ⟨{}, Modifiers.altControl, 'V', [Action.PasteClipboard true]⟩,
    ⟨{}, Modifiers.shiftControl, 'V', [Action.PasteClipboard false]⟩,
    ⟨{}, Modifiers.shiftControl, 'V', [Action.PasteClipboard false]⟩,
    ⟨{}, Modifiers.altControl, 'S', [Action.ScreenshotVT]⟩,
    ⟨{}, Modifiers.controlOnly, '0', [Action.ResetFontSize]⟩,
    ⟨{}, Modifiers.shiftControl, 'T', [Action.CreateNewTab]⟩,
    ⟨{}, Modifiers.altOnly, '1', [Action.SwitchToTab 1]⟩,
    ⟨{}, Modifiers.altOnly, '2', [Action.SwitchToTab 2]⟩,
    ⟨{}, Modifiers.altOnly, '3', [Action.SwitchToTab 3]⟩,
    ⟨{}, Modifiers.altOnly, '4', [Action.SwitchToTab 4]⟩,
    ⟨{}, Modifiers.altOnly, '5', [Action.SwitchToTab 5]⟩,
    ⟨{}, Modifiers.altOnly, '6', [Action.SwitchToTab 6]⟩,
    ⟨{}, Modifiers.altOnly, '7', [Action.SwitchToTab 7]⟩,
    ⟨{}, Modifiers.altOnly, '8', [Action.SwitchToTab 8]⟩,
    ⟨{}, Modifiers.altOnly, '9', [Action.SwitchToTab 9]⟩,
    ⟨{}, Modifiers.altOnly, '0', [Action.SwitchToTab 10]⟩,
    ⟨selectInsertModes, Modifiers.controlOnly, 'C', [Action.CopySelection]⟩,
    ⟨selectInsertModes, Modifiers.controlOnly, 'C', [Action.CancelSelection]⟩,
    ⟨selectInsertModes, Modifiers.controlOnly, 'V', [Action.PasteClipboard false]⟩,
    ⟨selectInsertModes, Modifiers.controlOnly, 'V', [Action.CancelSelection]⟩,
    ⟨insertModes, Modifiers.shiftControl, ',', [Action.OpenConfiguration]⟩,
    ⟨insertModes, Modifiers.shiftControl, ' ', [Action.ViNormalMode]⟩,
    ⟨{}, Modifiers.shiftControl, ',', [Action.OpenConfiguration]⟩,
    ⟨{}, Modifiers.shiftControl, 'Q', [Action.Quit]⟩,
    ⟨notAlternateScreenModes, Modifiers.altControl, 'K', [Action.ScrollMarkUp]⟩,
    ⟨notAlternateScreenModes, Modifiers.altControl, 'J', [Action.ScrollMarkDown]⟩,
    ⟨{}, Modifiers.altControl, 'O', [Action.OpenFileManager]⟩,
    ⟨{}, Modifiers.altControl, '.', [Action.ToggleStatusLine]⟩,
    ⟨{}, Modifiers.shiftControl, 'F', [Action.SearchReverse]⟩,
    ⟨{}, Modifiers.shiftControl, 'H', [Action.NoSearchHighlight]⟩ ]

/-- The built-in default mouse binding list (defaultInputMappings
.mouseMappings), in source order. -/
def defaultMouseMappings : List MouseInputMapping :=
  [ ⟨{}, Modifiers.controlOnly, MouseButton.Left, [Action.FollowHyperlink]⟩,
    ⟨{}, Modifiers.none, MouseButton.Middle, [Action.PasteSelection]⟩,
    ⟨{}, Modifiers.none, MouseButton.WheelDown, [Action.ScrollDown]⟩,
    ⟨{}, Modifiers.none, MouseButton.WheelUp, [Action.ScrollUp]⟩,
    ⟨{}, Modifiers.altOnly, MouseButton.WheelDown, [Action.DecreaseOpacity]⟩,
    ⟨{}, Modifiers.altOnly, MouseButton.WheelUp, [Action.IncreaseOpacity]⟩,
    ⟨{}, Modifiers.controlOnly, MouseButton.WheelDown, [Action.DecreaseFontSize]⟩,
    ⟨{}, Modifiers.controlOnly, MouseButton.WheelUp, [Action.IncreaseFontSize]⟩,
    ⟨{}, Modifiers.shiftOnly, MouseButton.WheelDown, [Action.ScrollPageDown]⟩,
    ⟨{}, Modifiers.shiftOnly, MouseButton.WheelUp, [Action.ScrollPageUp]⟩ ]

/-- The built-in default binding table (defaultInputMappings). -/
def defaultInputMappings : InputMappings :=
  { keyMappings := defaultKeyMappings
    charMappings := defaultCharMappings
    mouseMappings := defaultMouseMappings }

/-- True when no record of the list carries exactly this (filter,
modifiers, trigger) triple. -/
def noTriple {I B : Type} [DecidableEq I] (bindings : List (InputBinding I B))
    (modes : MatchModes) (modifier : Modifiers) (input : I) : Bool :=
  bindings.all fun b => !bindingMatches b modes modifier input

/-- Within one binding list, no two records share an identical (filter,
modifier-set, trigger) triple. -/
def uniqueTriples {I B : Type} [DecidableEq I] :
    List (InputBinding I B) → Bool
  | [] => true
  | b :: rest => noTriple rest b.modes b.modifiers b.input && uniqueTriples rest

/-- The (modes, modifiers, input) identity triple of a binding record. -/
def tripleOf {I B : Type} (b : InputBinding I B) : MatchModes × Modifiers × I :=
  (b.modes, b.modifiers, b.input)

/-- Outcome of extracting one entry from the raw document: the key is
absent, the extraction threw (wrong type or out-of-range), or it
produced a value. -/
inductive ParseResult (V : Type) where
  | absent
  | malformed
  | ok (v : V)
deriving DecidableEq, Repr

/-- Effect of one loadFromEntry call on the stored value: the source's
ConfigEntry wrapper catches any per-field failure and leaves the value
as it was, the per-type loaders overwrite only when the key is present
(`if (child) where = child.as..`), so only a successful extraction
mutates the field. -/
def loadField {V : Type} : ParseResult V → V → V
  | .ok v, _ => v
  | .absent, cur => cur
  | .malformed, cur => cur

/-- Raw data of one profile entry of the document: what extraction
yields for each field. -/
def ProfileEntry (F V : Type) : Type := F → ParseResult V

/-- Loading one profile entry onto an existing profile, field by field.
Modelled from the spec: the body of loadFromEntry for a TerminalProfile
is only declared under the provided sources; per the spec each field is
loaded with the type-directed rules, so a field the entry does not
specify (or fails to parse) keeps its prior value and a specified field
takes the override. -/
def loadFromEntryProfile {F V : Type} (entry : ProfileEntry F V) (profile : F → V) : F → V :=
  fun f => loadField (entry f) (profile f)

/-- Lookup by name in a profiles map (std::unordered_map find). -/
def lookupName {P : Type} : List (String × P) → String → Option P
  | [], _ => none
  | (k, v) :: rest, n => if k = n then some v else lookupName rest n

/-- Insert-or-update by name in a profiles map (std::unordered_map
operator[] assignment). -/
def setName {P : Type} : List (String × P) → String → P → List (String × P)
  | [], n, p => [(n, p)]
  | (k, v) :: rest, n, p =>
      if k = n then (k, p) :: rest else (k, v) :: setName rest n p

/-- The raw profile entry stored under a name of the profiles section;
an absent name behaves as an entry that specifies nothing. -/
def entryFor {F V : Type} (child : List (String × ProfileEntry F V)) (name : String) :
    ProfileEntry F V :=
  (lookupName child name).getD fun _ => ParseResult.absent

/-- YAMLConfigReader::loadFromEntry for the profiles map: when the
profiles section is present, first load the default-profile entry onto
the existing (or default-constructed) record under the default name,
then for every other entry clone the loaded default profile and load
that entry's overrides onto the clone; an absent section leaves the map
untouched.  The loop body over the section entries is profilesStep. -/
def profilesStep {F V : Type} (defaultProfileName : String) (builtinProfile : F → V)
    (acc : List (String × (F → V))) (ne : String × ProfileEntry F V) :
    List (String × (F → V)) :=
  if ne.1 = defaultProfileName then acc
  else
    setName acc ne.1
      (loadFromEntryProfile ne.2
        ((lookupName acc defaultProfileName).getD builtinProfile))

def loadFromEntryProfiles {F V : Type} (child : Option (List (String × ProfileEntry F V)))
    (defaultProfileName : String) (builtinProfile : F → V)
    (profiles : List (String × (F → V))) : List (String × (F → V)) :=
  match child with
  | none => profiles
  | some entries =>
      let m1 := setName profiles defaultProfileName
        (loadFromEntryProfile (entryFor entries defaultProfileName)
          ((lookupName profiles defaultProfileName).getD builtinProfile))
      List.foldl (profilesStep defaultProfileName builtinProfile) m1 entries

/-- The raw configuration document as the Reader sees it after the
top-level parse: the default-profile entry, the profiles section (none
when absent), and the extraction outcome of every documented
document-level field. -/
structure RawDoc (F V : Type) where
  defaultProfileEntry : ParseResult String
  profilesSection : Option (List (String × ProfileEntry F V))
  topFields : F → ParseResult V

/-- A raw document in which every key is absent: what the Reader works
on after a caught top-level parse failure. -/
def emptyRawDoc (F V : Type) : RawDoc F V :=
  { defaultProfileEntry := .absent
    profilesSection := none
    topFields := fun _ => .absent }

/-- The Document model: the default-profile name, the profile map, and
the document-level fields other than the binding table.  The binding
table renders and reloads through its own concrete model below
(renderBindingList, loadBindingEntries), because its Writer emission
and Reader accumulation are not a plain re-parse of the stored value. -/
structure ConfigM (F V : Type) where
  defaultProfileName : String
  profiles : List (String × (F → V))
  globals : F → V

/-- The default-constructed Document: default-profile name is the
built-in name, the profile map holds that single built-in profile, and
every document-level field has its built-in default. -/
def defaultConfigM {F V : Type} (builtinProfile : F → V) (globalsDefault : F → V) :
    ConfigM F V :=
  { defaultProfileName := "main"
    profiles := [("main", builtinProfile)]
    globals := globalsDefault }

/-- Config::profile: lookup of a profile by name; the some branch is the
found profile, none is the assert-false / unreachable branch of the
source. -/
def ConfigM.profile {F V : Type} (c : ConfigM F V) (name : String) : Option (F → V) :=
  lookupName c.profiles name

/-- YAMLConfigReader::load.
Modelled from the spec: the body of load(Config&) is only declared under
the provided sources; per the spec it loads the default-profile name and
every document-level field with the type-directed per-field rules and
hands the profiles section to the profiles-map loader together with the
default-profile name. -/
def load {F V : Type} (builtinProfile : F → V) (d : RawDoc F V) (c : ConfigM F V) :
    ConfigM F V :=
  let dn := loadField d.defaultProfileEntry c.defaultProfileName
  { defaultProfileName := dn
    profiles := loadFromEntryProfiles d.profilesSection dn builtinProfile c.profiles
    globals := fun f => loadField (d.topFields f) (c.globals f) }

/-- The YAMLConfigReader constructor: a successful top-level parse keeps
the parsed document, a failure is caught and logged and leaves the
Reader with an empty document. -/
def readerDoc {F V : Type} : Except String (RawDoc F V) → RawDoc F V
  | .ok d => d
  | .error _ => emptyRawDoc F V

/-- Rendering one profile: every documented field is emitted with its
current value.
Modelled from the spec: the Writer bodies (createString,
defaultConfigString) are not under the provided sources; per the spec
the output carries one section per field with the field's current value,
suitable for round-tripping through the Reader. -/
def renderProfile {F V : Type} (p : F → V) : ProfileEntry F V :=
  fun f => .ok (p f)

/-- Rendering a Document: the default-profile name, a profiles section
with one entry per profile, and every plain document-level field with
its current value.
Modelled from the spec: the Writer bodies (createString,
defaultConfigString) are not under the provided sources; per the spec
the output carries one section per field with the field's current
value.  This covers only the fields whose emission re-parses to the
stored value; the binding table is excluded, since the in-source Writer
format functions emit only the first action of each record and the
Reader re-accumulates loaded entries — see renderBindingList and
loadBindingEntries. -/
def render {F V : Type} (c : ConfigM F V) : RawDoc F V :=
  { defaultProfileEntry := .ok c.defaultProfileName
    profilesSection := some (c.profiles.map fun np => (np.1, renderProfile np.2))
    topFields := fun f => .ok (c.globals f) }

/-- The Writer emission of one binding record: the in-source format
functions for KeyInputMapping, CharInputMapping and MouseInputMapping
emit one document entry per record carrying its filter, modifiers,
trigger and only the FIRST action of the record's action list
(v.binding[0]; a record with an empty action list is undefined behavior
in the source and yields the default action here). -/
def renderBindingEntry {I : Type} (b : InputBinding I (List Action)) :
    MatchModes × Modifiers × I × Action :=
  (b.modes, b.modifiers, b.input, b.binding.headI)

/-- The Writer emission of a whole binding list: one rendered entry per
record, in list order. -/
def renderBindingList {I : Type} (bs : List (InputBinding I (List Action))) :
    List (MatchModes × Modifiers × I × Action) :=
  bs.map renderBindingEntry

/-- The Reader side of the binding table: each parsed binding entry of
the document is merged onto the current list with the in-source
accumulation rule (appendOrCreateBinding), built-in bindings first and
then the document entries in document order.
Modelled from the spec: the entry-parsing loop is only declared under
the provided sources (tryAddKey, tryAddMouse, parseAction); per the spec
the built-in table is loaded first and the document's entries are merged
on top with the same accumulation rule, extending rather than replacing
same-triple records. -/
def loadBindingEntries {I : Type} [DecidableEq I]
    (entries : List (MatchModes × Modifiers × I × Action))
    (bindings : List (InputBinding I (List Action))) :
    List (InputBinding I (List Action)) :=
  entries.foldl (fun acc e => appendOrCreateBinding acc e.1 e.2.1 e.2.2.1 e.2.2.2) bindings

/-- YAMLConfigWriter::OneOffset: four spaces per nesting level. -/
def OneOffset : Nat := 4

def spaces (n : Nat) : String :=
  String.mk (List.replicate n ' ')

/-- YAMLConfigWriter::addOffset: prefix every line of the text with the
given number of spaces.  The text is carried as its newline-split
segments; the regex replacement of the source touches exactly the
non-empty newline-terminated segments, so every segment but the last is
prefixed when non-empty and the final segment (after the last newline)
is left alone. -/
def addOffset : List String → Nat → List String
  | [], _ => []
  | [last], _ => [last]
  | s :: rest, off => (if s = "" then s else spaces off ++ s) :: addOffset rest off

/-- YAMLConfigWriter::process: emit text indented by the current value
of the nesting counter times OneOffset. -/
def process (doc : List String) (levels : Nat) : List String :=
  addOffset doc (levels * OneOffset)

/-- Writer::scoped together with the Offset guard: the counter is
incremented on entry, the body runs against the incremented counter, and
on exit the counter left by the body is decremented.  The counter is the
single process-wide Offset::levels static, threaded explicitly. -/
def scopedBlock {α : Type} (body : Nat → α × Nat) (levels : Nat) : α × Nat :=
  let r := body (levels + 1)
  (r.1, r.2 - 1)

/-- One render invocation emitting one nested structure: a scoped block
whose body emits its text through process at the current counter.  The
incoming Nat is the value the process-wide counter holds when the render
call starts. -/
def renderOne (doc : List String) (levels : Nat) : List String × Nat :=
  scopedBlock (fun l => (process doc l, l)) levels

/-- contour::config::WindowMargins (both margins are boxed unsigned). -/
structure WindowMargins where
  horizontal : Nat := 0
  vertical : Nat := 0
deriving DecidableEq, Repr

/-- operator*(WindowMargins const&, double): the returned aggregate sets
only the horizontal margin from the scaled product, leaving the vertical
margin at its default of zero.  The double factor is carried as an exact
rational and the cast to unsigned as floor-then-clamp, which agrees with
the C++ truncation for nonnegative products. -/
def windowMarginsMul (margin : WindowMargins) (factor : ℚ) : WindowMargins :=
  { horizontal := (Rat.floor ((margin.horizontal : ℚ) * factor)).toNat }

/-- Bit position of each flag, so that flagMask is two to this power. -/
def flagIndex : Flag → Nat
  | .AlternateScreen => 0
  | .AppCursor => 1
  | .AppKeypad => 2
  | .Select => 3
  | .Insert => 4
  | .Search => 5
  | .Trace => 6

/-- The per-flag condition of the match-mode claim, stated through bit
tests: a flag the filter marks Enabled has its bit set in the actual
flags, a flag marked Disabled has its bit clear, and a flag marked Any
passes unconditionally. -/
def flagSatisfied (actualModeFlags : Nat) (expected : MatchModes) (flag : Flag) : Prop :=
  match expected.status flag with
  | .Enabled => actualModeFlags.testBit (flagIndex flag) = true
  | .Disabled => actualModeFlags.testBit (flagIndex flag) = false
  | .Any => True

/-- A concrete built-in profile over a one-field schema, for concrete
instances of the loader. -/
def zeroProfile : Unit → Nat := fun _ => 0

/-- A concrete raw document that renames the default profile to a name
the document never defines and carries no profiles section. -/
def renamedDefaultDoc : RawDoc Unit Nat :=
  { defaultProfileEntry := .ok "alt"
    profilesSection := none
    topFields := fun _ => .absent }

/-- A concrete profile entry overriding the single field with 1. -/
def mainEntry : ProfileEntry Unit Nat := fun _ => .ok 1

/-- A concrete profile entry overriding the single field with 2. -/
def altEntry : ProfileEntry Unit Nat := fun _ => .ok 2

/-- A concrete two-entry profiles section: the default-profile entry and
one non-default entry. -/
def profileEntriesEx : List (String × ProfileEntry Unit Nat) :=
  [("main", mainEntry), ("alt", altEntry)]

/-- A concrete raw document whose only document-level field fails to
parse. -/
def malformedFieldDoc : RawDoc Unit Nat :=
  { defaultProfileEntry := .absent
    profilesSection := none
    topFields := fun _ => .malformed }

/-- A concrete raw document carrying an empty profiles section. -/
def emptyProfilesSectionDoc : RawDoc Unit Nat :=
  { defaultProfileEntry := .absent
    profilesSection := some []
    topFields := fun _ => .absent }

theorem flagMask_eq_two_pow (f : Flag) : flagMask f = 2 ^ flagIndex f := by
  cases f <;> rfl

theorem land_mask_ne_zero (a : Nat) (f : Flag) :
    Nat.land a (flagMask f) ≠ 0 ↔ a.testBit (flagIndex f) = true := by
  have h : Nat.land a (flagMask f) = a &&& 2 ^ flagIndex f := by
    rw [flagMask_eq_two_pow]; rfl
  rw [h, Nat.and_two_pow]
  cases hb : a.testBit (flagIndex f) <;>
    simp [hb, Nat.ne_of_gt (Nat.two_pow_pos (flagIndex f))]

theorem land_mask_eq_zero (a : Nat) (f : Flag) :
    Nat.land a (flagMask f) = 0 ↔ a.testBit (flagIndex f) = false := by
  have h := land_mask_ne_zero a f
  rcases hb : a.testBit (flagIndex f) <;> simp [hb] at h ⊢ <;> simp [h]

theorem testMatchModeFlag_iff (a : Nat) (e : MatchModes) (f : Flag) :
    testMatchModeFlag a e f = true ↔ flagSatisfied a e f := by
  unfold testMatchModeFlag flagSatisfied
  cases e.status f
  · simpa using land_mask_ne_zero a f
  · simpa using land_mask_eq_zero a f
  · simp

/-- C5: the match-mode evaluator is a total pure function returning true
exactly when every one of the seven flags passes its tri-state check
against the corresponding bit of the actual flags (Enabled needs the bit
set, Disabled needs it clear, Any always passes), and the all-Any filter
matches every runtime flag combination. -/
theorem testMatchMode_spec :
    (∀ (actualModeFlags : Nat) (expected : MatchModes),
        testMatchMode actualModeFlags expected = true
          ↔ ∀ flag : Flag, flagSatisfied actualModeFlags expected flag)
    ∧ (∀ actualModeFlags : Nat, testMatchMode actualModeFlags {} = true) := by
  constructor
  · intro a e
    constructor
    · intro h flag
      simp only [testMatchMode, Bool.and_eq_true] at h
      obtain ⟨⟨⟨⟨⟨⟨h1, h2⟩, h3⟩, h4⟩, h5⟩, h6⟩, h7⟩ := h
      cases flag
      · exact (testMatchModeFlag_iff a e _).mp h1
      · exact (testMatchModeFlag_iff a e _).mp h2
      · exact (testMatchModeFlag_iff a e _).mp h3
      · exact (testMatchModeFlag_iff a e _).mp h4
      · exact (testMatchModeFlag_iff a e _).mp h5
      · exact (testMatchModeFlag_iff a e _).mp h6
      · exact (testMatchModeFlag_iff a e _).mp h7
    · intro h
      simp only [testMatchMode, Bool.and_eq_true]
      refine ⟨⟨⟨⟨⟨⟨?_, ?_⟩, ?_⟩, ?_⟩, ?_⟩, ?_⟩, ?_⟩ <;>
        exact (testMatchModeFlag_iff a e _).mpr (h _)
  · intro a
    rfl

/-- C1: the resolver scans the binding list in stored order and returns
the action list of the first record whose modifier set equals the query
exactly, whose trigger equals the query, and whose filter matches the
actual flags, none when no record qualifies; in particular a list whose
records all carry modifiers Control never answers a query with modifiers
Control+Shift, and vice versa. -/
theorem apply_first_exact_match :
    (∀ (I : Type) (inst : DecidableEq I) (mappings : List (InputBinding I (List Action)))
        (input : I) (modifiers : Modifiers) (actualModeFlags : Nat),
        apply mappings input modifiers actualModeFlags
          = (mappings.find? fun m =>
              decide (m.modifiers = modifiers ∧ m.input = input
                ∧ testMatchMode actualModeFlags m.modes = true)).map InputBinding.binding)
    ∧ (∀ (mappings : List (InputBinding Key (List Action))) (input : Key)
        (actualModeFlags : Nat),
        (∀ b ∈ mappings, b.modifiers = Modifiers.controlOnly) →
          apply mappings input Modifiers.shiftControl actualModeFlags = none)
    ∧ (∀ (mappings : List (InputBinding Key (List Action))) (input : Key)
        (actualModeFlags : Nat),
        (∀ b ∈ mappings, b.modifiers = Modifiers.shiftControl) →
          apply mappings input Modifiers.controlOnly actualModeFlags = none) := by
  refine ⟨?_, ?_, ?_⟩
  · intro I inst mappings input modifiers flags
    induction mappings with
    | nil => rfl
    | cons m rest ih =>
      by_cases h : m.modifiers = modifiers ∧ m.input = input
          ∧ testMatchMode flags m.modes = true
      · rw [apply, if_pos h, List.find?_cons_of_pos _ (by simpa using h)]
        rfl
      · rw [apply, if_neg h, List.find?_cons_of_neg _ (by simpa using h), ih]
  · intro mappings input flags hmods
    induction mappings with
    | nil => rfl
    | cons b rest ih =>
      have hb : b.modifiers = Modifiers.controlOnly := hmods b (List.mem_cons_self b rest)
      have hcond : ¬ (b.modifiers = Modifiers.shiftControl ∧ b.input = input
          ∧ testMatchMode flags b.modes = true) := by
        rintro ⟨h1, -⟩
        rw [hb] at h1
        exact absurd h1 (by decide)
      rw [apply, if_neg hcond]
      exact ih fun x hx => hmods x (List.mem_cons_of_mem _ hx)
  · intro mappings input flags hmods
    induction mappings with
    | nil => rfl
    | cons b rest ih =>
      have hb : b.modifiers = Modifiers.shiftControl := hmods b (List.mem_cons_self b rest)
      have hcond : ¬ (b.modifiers = Modifiers.controlOnly ∧ b.input = input
          ∧ testMatchMode flags b.modes = true) := by
        rintro ⟨h1, -⟩
        rw [hb] at h1
        exact absurd h1 (by decide)
      rw [apply, if_neg hcond]
      exact ih fun x hx => hmods x (List.mem_cons_of_mem _ hx)

/-- Witness for C1: a one-record list bound for Control alone does not
answer the Control+Shift query. -/
theorem apply_first_exact_match_witness :
    (∀ b ∈ [(⟨{}, Modifiers.controlOnly, Key.Enter, [Action.ToggleFullscreen]⟩ :
        InputBinding Key (List Action))], b.modifiers = Modifiers.controlOnly)
    ∧ apply [(⟨{}, Modifiers.controlOnly, Key.Enter, [Action.ToggleFullscreen]⟩ :
        InputBinding Key (List Action))] Key.Enter Modifiers.shiftControl 0 = none :=
  ⟨by decide, apply_first_exact_match.2.1 _ Key.Enter 0 (by decide)⟩

theorem noTriple_cons {I B : Type} [DecidableEq I] (b : InputBinding I B)
    (bs : List (InputBinding I B)) (modes : MatchModes) (modifier : Modifiers) (input : I) :
    noTriple (b :: bs) modes modifier input
      = (!bindingMatches b modes modifier input && noTriple bs modes modifier input) := rfl

/-- C2: the accumulator appends the action to the first record carrying
the identical (filter, modifiers, trigger) triple when one exists and
otherwise appends a fresh record at the end of the list; consequently
two entries with the same triple and actions A1 then A2 resolve to the
action list [A1, A2]. -/
theorem appendOrCreateBinding_accumulates :
    (∀ (I : Type) (inst : DecidableEq I) (bindings : List (InputBinding I (List Action)))
        (modes : MatchModes) (modifier : Modifiers) (input : I) (action : Action),
        noTriple bindings modes modifier input = true →
          appendOrCreateBinding bindings modes modifier input action
            = bindings ++ [⟨modes, modifier, input, [action]⟩])
    ∧ (∀ (I : Type) (inst : DecidableEq I) (pre post : List (InputBinding I (List Action)))
        (b : InputBinding I (List Action)) (modes : MatchModes) (modifier : Modifiers)
        (input : I) (action : Action),
        noTriple pre modes modifier input = true →
        bindingMatches b modes modifier input = true →
          appendOrCreateBinding (pre ++ b :: post) modes modifier input action
            = pre ++ { b with binding := b.binding ++ [action] } :: post)
    ∧ (∀ (I : Type) (inst : DecidableEq I) (modes : MatchModes) (modifier : Modifiers)
        (input : I) (a1 a2 : Action) (actualModeFlags : Nat),
        testMatchMode actualModeFlags modes = true →
          apply (appendOrCreateBinding (appendOrCreateBinding [] modes modifier input a1)
              modes modifier input a2) input modifier actualModeFlags
            = some [a1, a2]) := by
  refine ⟨?_, ?_, ?_⟩
  · intro I inst bindings modes modifier input action h
    induction bindings with
    | nil => rfl
    | cons b rest ih =>
      rw [noTriple_cons, Bool.and_eq_true, Bool.not_eq_true'] at h
      rw [appendOrCreateBinding, if_neg (by simp [h.1]), ih h.2]
      rfl
  · intro I inst pre post b modes modifier input action hpre hb
    induction pre with
    | nil =>
      rw [List.nil_append, appendOrCreateBinding, if_pos hb]
      rfl
    | cons p rest ih =>
      rw [noTriple_cons, Bool.and_eq_true, Bool.not_eq_true'] at hpre
      rw [List.cons_append, appendOrCreateBinding, if_neg (by simp [hpre.1]), ih hpre.2]
      rfl
  · intro I inst modes modifier input a1 a2 flags h
    have h1 : bindingMatches (⟨modes, modifier, input, [a1]⟩ : InputBinding I (List Action))
        modes modifier input = true := by
      simp [bindingMatches]
    have h2 : appendOrCreateBinding
        (appendOrCreateBinding [] modes modifier input a1) modes modifier input a2
        = [⟨modes, modifier, input, [a1, a2]⟩] := by
      rw [appendOrCreateBinding, appendOrCreateBinding, if_pos h1]
      rfl
    rw [h2, apply, if_pos ⟨rfl, rfl, h⟩]

/-- Witness for C2: accumulating CopySelection then CancelSelection on
the same triple from the empty list resolves to both actions in file
order. -/
theorem appendOrCreateBinding_accumulates_witness :
    testMatchMode 0 {} = true
    ∧ apply (appendOrCreateBinding
          (appendOrCreateBinding [] {} Modifiers.controlOnly 'C' Action.CopySelection)
          {} Modifiers.controlOnly 'C' Action.CancelSelection)
        'C' Modifiers.controlOnly 0
        = some [Action.CopySelection, Action.CancelSelection] :=
  ⟨rfl, appendOrCreateBinding_accumulates.2.2 Char (inferInstance) {} Modifiers.controlOnly
    'C' Action.CopySelection Action.CancelSelection 0 rfl⟩

theorem bindingMatches_iff {I B : Type} [DecidableEq I] (b : InputBinding I B)
    (modes : MatchModes) (modifier : Modifiers) (input : I) :
    bindingMatches b modes modifier input = true ↔ tripleOf b = (modes, modifier, input) := by
  simp [bindingMatches, tripleOf, Prod.ext_iff, and_assoc]

theorem noTriple_iff {I B : Type} [DecidableEq I] (bs : List (InputBinding I B))
    (modes : MatchModes) (modifier : Modifiers) (input : I) :
    noTriple bs modes modifier input = true
      ↔ (modes, modifier, input) ∉ bs.map tripleOf := by
  simp only [noTriple, List.all_eq_true, Bool.not_eq_true', List.mem_map]
  constructor
  · rintro h ⟨b, hb, ht⟩
    have := h b hb
    rw [(Bool.not_eq_true _).symm] at this
    exact this ((bindingMatches_iff b modes modifier input).mpr ht)
  · intro h b hb
    rcases hmatch : bindingMatches b modes modifier input with _ | _
    · rfl
    · exact absurd ⟨b, hb, (bindingMatches_iff b modes modifier input).mp hmatch⟩ h

theorem uniqueTriples_iff {I B : Type} [DecidableEq I] (bs : List (InputBinding I B)) :
    uniqueTriples bs = true ↔ (bs.map tripleOf).Nodup := by
  induction bs with
  | nil => simp [uniqueTriples]
  | cons b rest ih =>
    simp only [uniqueTriples, Bool.and_eq_true, List.map_cons, List.nodup_cons, ih,
      noTriple_iff]
    constructor
    · rintro ⟨h1, h2⟩
      exact ⟨fun hmem => h1 (by simpa [tripleOf] using hmem), h2⟩
    · rintro ⟨h1, h2⟩
      exact ⟨by simpa [tripleOf] using h1, h2⟩

theorem map_tripleOf_appendOrCreate {I : Type} [DecidableEq I]
    (bs : List (InputBinding I (List Action))) (modes : MatchModes)
    (modifier : Modifiers) (input : I) (action : Action) :
    (appendOrCreateBinding bs modes modifier input action).map tripleOf
      = if noTriple bs modes modifier input = true
          then bs.map tripleOf ++ [(modes, modifier, input)]
          else bs.map tripleOf := by
  induction bs with
  | nil => rfl
  | cons b rest ih =>
    rcases hmatch : bindingMatches b modes modifier input with _ | _
    · rw [appendOrCreateBinding, if_neg (by simp [hmatch]), noTriple_cons, hmatch]
      by_cases hrest : noTriple rest modes modifier input = true
      · simp only [List.map_cons, ih, if_pos hrest, hrest, Bool.not_false, Bool.true_and,
          if_pos]
        rfl
      · rw [Bool.not_eq_true] at hrest
        simp [List.map_cons, ih, hrest]
    · rw [appendOrCreateBinding, if_pos hmatch, noTriple_cons, hmatch]
      simp only [Bool.not_true, Bool.false_and]
      rw [if_neg (by simp)]
      rfl

/-- Counterexample for C7: the built-in default character binding list
itself carries two records with the identical (filter, modifiers,
trigger) triple, namely the Control+Shift V PasteClipboard records at
positions 4 and 5. -/
theorem default_table_triple_counterexample :
    uniqueTriples defaultInputMappings.charMappings = false
    ∧ tripleOf (defaultInputMappings.charMappings.getD 4 ⟨{}, {}, ' ', []⟩)
        = tripleOf (defaultInputMappings.charMappings.getD 5 ⟨{}, {}, ' ', []⟩) := by
  exact ⟨by decide, by decide⟩

/-- C7 as amended: the loading-time accumulation rule preserves triple
uniqueness of a binding list, and the built-in default key and mouse
lists satisfy it, but the built-in default character list does not (see
the counterexample). -/
theorem unique_triples_amended :
    uniqueTriples defaultInputMappings.keyMappings = true
    ∧ uniqueTriples defaultInputMappings.mouseMappings = true
    ∧ (∀ (I : Type) (inst : DecidableEq I) (bs : List (InputBinding I (List Action)))
        (modes : MatchModes) (modifier : Modifiers) (input : I) (action : Action),
        uniqueTriples bs = true →
          uniqueTriples (appendOrCreateBinding bs modes modifier input action) = true) := by
  refine ⟨by decide, by decide, ?_⟩
  intro I inst bs modes modifier input action h
  rw [uniqueTriples_iff] at h ⊢
  rw [map_tripleOf_appendOrCreate]
  by_cases hfree : noTriple bs modes modifier input = true
  · rw [if_pos hfree]
    rw [noTriple_iff] at hfree
    simp [List.nodup_append, h, hfree]
  · rw [if_neg hfree]
    exact h

/-- Witness for the amended C7: the accumulation rule keeps a singleton
list with a fresh triple duplicate-free. -/
theorem unique_triples_amended_witness :
    uniqueTriples [(⟨{}, Modifiers.controlOnly, 'C', [Action.CopySelection]⟩ :
        InputBinding Char (List Action))] = true
    ∧ uniqueTriples (appendOrCreateBinding
        [(⟨{}, Modifiers.controlOnly, 'C', [Action.CopySelection]⟩ :
          InputBinding Char (List Action))]
        {} Modifiers.shiftControl 'C' Action.CancelSelection) = true :=
  ⟨by decide, unique_triples_amended.2.2 Char (inferInstance) _ {} Modifiers.shiftControl
    'C' Action.CancelSelection (by decide)⟩

theorem lookupName_setName_self {P : Type} (m : List (String × P)) (k : String) (p : P) :
    lookupName (setName m k p) k = some p := by
  induction m with
  | nil => simp [setName, lookupName]
  | cons kv rest ih =>
    rcases kv with ⟨k1, v⟩
    by_cases h : k1 = k
    · rw [setName, if_pos h, lookupName, if_pos h]
    · rw [setName, if_neg h, lookupName, if_neg h]
      exact ih

theorem lookupName_setName_ne {P : Type} (m : List (String × P)) (k n : String) (p : P)
    (h : k ≠ n) : lookupName (setName m k p) n = lookupName m n := by
  induction m with
  | nil => simp [setName, lookupName, h]
  | cons kv rest ih =>
    rcases kv with ⟨k1, v⟩
    by_cases h1 : k1 = k
    · rw [setName, if_pos h1, lookupName, lookupName]
      by_cases h2 : k1 = n
      · exact absurd (h1.symm.trans h2) h
      · rw [if_neg h2, if_neg h2]
    · rw [setName, if_neg h1, lookupName, lookupName]
      by_cases h2 : k1 = n
      · rw [if_pos h2, if_pos h2]
      · rw [if_neg h2, if_neg h2]
        exact ih

theorem lookupName_profilesStep_default {F V : Type} (dn : String) (builtin : F → V)
    (acc : List (String × (F → V))) (ne : String × ProfileEntry F V) :
    lookupName (profilesStep dn builtin acc ne) dn = lookupName acc dn := by
  unfold profilesStep
  by_cases h : ne.1 = dn
  · rw [if_pos h]
  · rw [if_neg h, lookupName_setName_ne _ _ _ _ h]

theorem foldl_profilesStep_default {F V : Type} (entries : List (String × ProfileEntry F V))
    (dn : String) (builtin : F → V) (acc : List (String × (F → V))) :
    lookupName (List.foldl (profilesStep dn builtin) acc entries) dn = lookupName acc dn := by
  induction entries generalizing acc with
  | nil => rfl
  | cons ne rest ih =>
    rw [List.foldl_cons, ih, lookupName_profilesStep_default]

theorem foldl_profilesStep_not_mem {F V : Type} (entries : List (String × ProfileEntry F V))
    (dn : String) (builtin : F → V) (name : String)
    (h : name ∉ entries.map Prod.fst) (acc : List (String × (F → V))) :
    lookupName (List.foldl (profilesStep dn builtin) acc entries) name
      = lookupName acc name := by
  induction entries generalizing acc with
  | nil => rfl
  | cons ne rest ih =>
    simp only [List.map_cons, List.mem_cons, not_or] at h
    rw [List.foldl_cons, ih h.2]
    unfold profilesStep
    by_cases hd : ne.1 = dn
    · rw [if_pos hd]
    · rw [if_neg hd, lookupName_setName_ne _ _ _ _ fun he => h.1 he.symm]

theorem foldl_profilesStep_mem {F V : Type} (entries : List (String × ProfileEntry F V))
    (dn : String) (builtin : F → V) (name : String) (e : ProfileEntry F V)
    (hnodup : (entries.map Prod.fst).Nodup) (hmem : (name, e) ∈ entries) (hne : name ≠ dn)
    (acc : List (String × (F → V))) :
    lookupName (List.foldl (profilesStep dn builtin) acc entries) name
      = some (loadFromEntryProfile e ((lookupName acc dn).getD builtin)) := by
  induction entries generalizing acc with
  | nil => cases hmem
  | cons ne rest ih =>
    simp only [List.map_cons, List.nodup_cons] at hnodup
    rcases List.mem_cons.mp hmem with heq | hmem1
    · rw [List.foldl_cons]
      have hstep : profilesStep dn builtin acc ne
          = setName acc name (loadFromEntryProfile e ((lookupName acc dn).getD builtin)) := by
        rw [← heq]
        unfold profilesStep
        rw [if_neg hne]
      have hfst : name ∉ rest.map Prod.fst := by
        intro hcontra
        apply hnodup.1
        rw [← heq]
        exact hcontra
      rw [hstep, foldl_profilesStep_not_mem rest dn builtin name hfst,
        lookupName_setName_self]
    · have hne1 : ne.1 ≠ name := by
        intro hcontra
        apply hnodup.1
        rw [hcontra]
        exact List.mem_map_of_mem Prod.fst hmem1
      rw [List.foldl_cons, ih hnodup.2 hmem1, lookupName_profilesStep_default]

theorem loadFromEntryProfiles_some {F V : Type} (entries : List (String × ProfileEntry F V))
    (dn : String) (builtin : F → V) (profiles : List (String × (F → V))) :
    loadFromEntryProfiles (some entries) dn builtin profiles
      = List.foldl (profilesStep dn builtin)
          (setName profiles dn
            (loadFromEntryProfile (entryFor entries dn)
              ((lookupName profiles dn).getD builtin)))
          entries := rfl

/-- C3: every non-default profile entry of the profiles section loads as
the fully loaded default (baseline) profile with that entry's own
overrides applied field by field — it equals the baseline on every field
the entry does not specify, equals the override on every field the entry
specifies, and an entry specifying nothing loads identical to the
baseline profile. -/
theorem profile_inheritance :
    ∀ (F V : Type) (entries : List (String × ProfileEntry F V)) (dn : String)
      (builtin : F → V) (profiles : List (String × (F → V)))
      (name : String) (e : ProfileEntry F V),
      (entries.map Prod.fst).Nodup → (name, e) ∈ entries → name ≠ dn →
      ∃ baseline : F → V,
        lookupName (loadFromEntryProfiles (some entries) dn builtin profiles) dn
            = some baseline
        ∧ lookupName (loadFromEntryProfiles (some entries) dn builtin profiles) name
            = some (loadFromEntryProfile e baseline)
        ∧ (∀ f, e f = .absent → loadFromEntryProfile e baseline f = baseline f)
        ∧ (∀ f v, e f = .ok v → loadFromEntryProfile e baseline f = v)
        ∧ ((∀ f, e f = .absent) → loadFromEntryProfile e baseline = baseline) := by
  intro F V entries dn builtin profiles name e hnodup hmem hne
  refine ⟨loadFromEntryProfile (entryFor entries dn) ((lookupName profiles dn).getD builtin),
    ?_, ?_, ?_, ?_, ?_⟩
  · rw [loadFromEntryProfiles_some, foldl_profilesStep_default, lookupName_setName_self]
  · rw [loadFromEntryProfiles_some,
      foldl_profilesStep_mem entries dn builtin name e hnodup hmem hne,
      lookupName_setName_self]
    rfl
  · intro f hf
    simp [loadFromEntryProfile, hf, loadField]
  · intro f v hf
    simp [loadFromEntryProfile, hf, loadField]
  · intro hall
    funext f
    simp [loadFromEntryProfile, hall f, loadField]

/-- Witness for C3: a two-entry profiles section over a one-field schema
where the non-default entry overrides the field. -/
theorem profile_inheritance_witness :
    ((profileEntriesEx.map Prod.fst).Nodup ∧ ("alt", altEntry) ∈ profileEntriesEx
        ∧ "alt" ≠ "main")
    ∧ ∃ baseline : Unit → Nat,
        lookupName (loadFromEntryProfiles (some profileEntriesEx) "main" zeroProfile
            [("main", zeroProfile)]) "main" = some baseline
        ∧ lookupName (loadFromEntryProfiles (some profileEntriesEx) "main" zeroProfile
            [("main", zeroProfile)]) "alt" = some (loadFromEntryProfile altEntry baseline)
        ∧ (∀ f, altEntry f = .absent → loadFromEntryProfile altEntry baseline f = baseline f)
        ∧ (∀ f v, altEntry f = .ok v → loadFromEntryProfile altEntry baseline f = v)
        ∧ ((∀ f, altEntry f = .absent) → loadFromEntryProfile altEntry baseline = baseline) :=
  ⟨⟨by decide, List.mem_cons_of_mem _ (List.mem_cons_self _ _), by decide⟩,
    profile_inheritance Unit Nat profileEntriesEx "main" zeroProfile [("main", zeroProfile)]
      "alt" altEntry (by decide) (List.mem_cons_of_mem _ (List.mem_cons_self _ _))
      (by decide)⟩

/-- C4: loading never fails outright — a caught top-level parse failure
yields the untouched (all-defaults) Document, and a per-field parse
failure leaves exactly that field at its prior default while a field
that parses loads its value. -/
theorem load_resilient :
    (∀ (F V : Type) (builtin : F → V) (msg : String) (c : ConfigM F V),
        load builtin (readerDoc (Except.error msg)) c = c)
    ∧ (∀ (F V : Type) (builtin : F → V) (d : RawDoc F V) (c : ConfigM F V) (f : F),
        d.topFields f = .malformed → (load builtin d c).globals f = c.globals f)
    ∧ (∀ (F V : Type) (builtin : F → V) (d : RawDoc F V) (c : ConfigM F V) (f : F) (v : V),
        d.topFields f = .ok v → (load builtin d c).globals f = v) := by
  refine ⟨?_, ?_, ?_⟩
  · intro F V builtin msg c
    rfl
  · intro F V builtin d c f hf
    show loadField (d.topFields f) (c.globals f) = c.globals f
    rw [hf]
    rfl
  · intro F V builtin d c f v hf
    show loadField (d.topFields f) (c.globals f) = v
    rw [hf]
    rfl

/-- Witness for C4: a document whose single field fails to parse leaves
that field at its default. -/
theorem load_resilient_witness :
    malformedFieldDoc.topFields () = .malformed
    ∧ (load zeroProfile malformedFieldDoc
        (defaultConfigM zeroProfile zeroProfile)).globals ()
      = (defaultConfigM zeroProfile zeroProfile).globals () :=
  ⟨rfl, load_resilient.2.1 Unit Nat zeroProfile malformedFieldDoc
    (defaultConfigM zeroProfile zeroProfile) () rfl⟩

/-- Counterexample for C6: a loaded document that renames the default
profile to a name it never defines, while carrying no profiles section,
leaves the default-profile name irresolvable — the failure branch of the
profile lookup is reached. -/
theorem profile_default_lookup_counterexample :
    ((load zeroProfile renamedDefaultDoc (defaultConfigM zeroProfile zeroProfile)).profile
        (load zeroProfile renamedDefaultDoc
          (defaultConfigM zeroProfile zeroProfile)).defaultProfileName).isNone = true := rfl

/-- C6 as amended: the default-profile lookup succeeds on the
default-constructed Document, and on every loaded Document whose raw
document carries a profiles section; with the section absent it still
succeeds provided the loaded default-profile name stays at the built-in
name — the remaining corner (default profile renamed with no profiles
section) fails the contract, see the counterexample. -/
theorem profile_default_lookup_amended :
    (∀ (F V : Type) (b g : F → V),
        (defaultConfigM b g).profile (defaultConfigM b g).defaultProfileName = some b)
    ∧ (∀ (F V : Type) (b : F → V) (d : RawDoc F V) (c : ConfigM F V)
        (entries : List (String × ProfileEntry F V)),
        d.profilesSection = some entries →
          ((load b d c).profile (load b d c).defaultProfileName).isSome = true)
    ∧ (∀ (F V : Type) (b bg g : F → V) (d : RawDoc F V),
        d.profilesSection = none →
        loadField d.defaultProfileEntry "main" = "main" →
          ((load b d (defaultConfigM bg g)).profile
            (load b d (defaultConfigM bg g)).defaultProfileName).isSome = true) := by
  refine ⟨?_, ?_, ?_⟩
  · intro F V b g
    rfl
  · intro F V b d c entries hsec
    show (lookupName
        (loadFromEntryProfiles d.profilesSection
          (loadField d.defaultProfileEntry c.defaultProfileName) b c.profiles)
        (loadField d.defaultProfileEntry c.defaultProfileName)).isSome = true
    rw [hsec, loadFromEntryProfiles_some, foldl_profilesStep_default,
      lookupName_setName_self]
    rfl
  · intro F V b bg g d hsec hname
    show (lookupName
        (loadFromEntryProfiles d.profilesSection
          (loadField d.defaultProfileEntry "main") b [("main", bg)])
        (loadField d.defaultProfileEntry "main")).isSome = true
    rw [hsec, hname]
    rfl

/-- Witness for the amended C6: a document with an (empty) profiles
section keeps the default-profile lookup resolvable. -/
theorem profile_default_lookup_amended_witness :
    emptyProfilesSectionDoc.profilesSection = some []
    ∧ ((load zeroProfile emptyProfilesSectionDoc
          (defaultConfigM zeroProfile zeroProfile)).profile
        (load zeroProfile emptyProfilesSectionDoc
          (defaultConfigM zeroProfile zeroProfile)).defaultProfileName).isSome = true :=
  ⟨rfl, profile_default_lookup_amended.2.1 Unit Nat zeroProfile emptyProfilesSectionDoc
    (defaultConfigM zeroProfile zeroProfile) [] rfl⟩

/-- Counterexample for C8: the binding-table field of the default
Document does not round-trip.  The Reader merges the rendered entries
onto the built-in table with the accumulation rule, so each rendered
entry re-accumulates onto its existing record instead of reproducing
it: reloading the rendered built-in character binding list yields a
table different from the built-in one — for instance the first record
comes back with its action list doubled. -/
theorem render_load_roundtrip_counterexample :
    loadBindingEntries (renderBindingList defaultInputMappings.charMappings)
        defaultInputMappings.charMappings
      ≠ defaultInputMappings.charMappings
    ∧ (loadBindingEntries (renderBindingList defaultInputMappings.charMappings)
          defaultInputMappings.charMappings).getD 0 ⟨{}, {}, ' ', []⟩
        = ⟨{}, Modifiers.shiftControl, '-',
            [Action.DecreaseFontSize, Action.DecreaseFontSize]⟩ :=
  ⟨by decide, by decide⟩

/-- C8 as amended: loading the rendered default Document reproduces the
default-profile name, the profiles, and every plain document-level
field; the binding table is the exception — reloading rendered binding
entries whose triples are already present (as every rendered entry's
triple is) extends the existing records in place, creating no new
records but not reproducing the action lists. -/
theorem render_load_roundtrip_amended :
    (∀ (F V : Type) (b g : F → V),
        load b (render (defaultConfigM b g)) (defaultConfigM b g) = defaultConfigM b g)
    ∧ (∀ (I : Type) (inst : DecidableEq I)
        (entries : List (MatchModes × Modifiers × I × Action))
        (bs : List (InputBinding I (List Action))),
        (∀ e ∈ entries, (e.1, e.2.1, e.2.2.1) ∈ bs.map tripleOf) →
          (loadBindingEntries entries bs).map tripleOf = bs.map tripleOf)
    ∧ (∀ (I : Type) (inst : DecidableEq I) (bs : List (InputBinding I (List Action))),
        (loadBindingEntries (renderBindingList bs) bs).map tripleOf = bs.map tripleOf) := by
  have hb : ∀ (I : Type) (inst : DecidableEq I)
      (entries : List (MatchModes × Modifiers × I × Action))
      (bs : List (InputBinding I (List Action))),
      (∀ e ∈ entries, (e.1, e.2.1, e.2.2.1) ∈ bs.map tripleOf) →
        (loadBindingEntries entries bs).map tripleOf = bs.map tripleOf := by
    intro I inst entries
    induction entries with
    | nil =>
      intro bs h
      rfl
    | cons e rest ih =>
      intro bs h
      have he : (e.1, e.2.1, e.2.2.1) ∈ bs.map tripleOf := h e (List.mem_cons_self e rest)
      have hno : ¬ noTriple bs e.1 e.2.1 e.2.2.1 = true := by
        rw [noTriple_iff]
        exact not_not_intro he
      have hmap : (appendOrCreateBinding bs e.1 e.2.1 e.2.2.1 e.2.2.2).map tripleOf
          = bs.map tripleOf := by
        rw [map_tripleOf_appendOrCreate, if_neg hno]
      have hsub : ∀ e1 ∈ rest, (e1.1, e1.2.1, e1.2.2.1)
          ∈ (appendOrCreateBinding bs e.1 e.2.1 e.2.2.1 e.2.2.2).map tripleOf := by
        intro e1 he1
        rw [hmap]
        exact h e1 (List.mem_cons_of_mem e he1)
      calc (loadBindingEntries (e :: rest) bs).map tripleOf
          = (loadBindingEntries rest
              (appendOrCreateBinding bs e.1 e.2.1 e.2.2.1 e.2.2.2)).map tripleOf := rfl
        _ = (appendOrCreateBinding bs e.1 e.2.1 e.2.2.1 e.2.2.2).map tripleOf := ih _ hsub
        _ = bs.map tripleOf := hmap
  refine ⟨fun F V b g => rfl, hb, ?_⟩
  intro I inst bs
  refine hb I inst _ bs ?_
  intro e he
  rcases List.mem_map.mp he with ⟨b0, hb0, rfl⟩
  exact List.mem_map_of_mem tripleOf hb0

/-- Witness for the amended C8: reloading a one-record table's rendered
entry leaves the record structure (its triple list) unchanged. -/
theorem render_load_roundtrip_amended_witness :
    (∀ e ∈ ([({}, Modifiers.controlOnly, 'C', Action.CopySelection)] :
        List (MatchModes × Modifiers × Char × Action)),
      (e.1, e.2.1, e.2.2.1)
        ∈ ([⟨{}, Modifiers.controlOnly, 'C', [Action.CopySelection]⟩] :
            List (InputBinding Char (List Action))).map tripleOf)
    ∧ (loadBindingEntries [({}, Modifiers.controlOnly, 'C', Action.CopySelection)]
          [⟨{}, Modifiers.controlOnly, 'C', [Action.CopySelection]⟩]).map tripleOf
        = ([⟨{}, Modifiers.controlOnly, 'C', [Action.CopySelection]⟩] :
            List (InputBinding Char (List Action))).map tripleOf :=
  ⟨by decide, render_load_roundtrip_amended.2.1 Char inferInstance
    [({}, Modifiers.controlOnly, 'C', Action.CopySelection)]
    [⟨{}, Modifiers.controlOnly, 'C', [Action.CopySelection]⟩] (by decide)⟩

/-- Counterexample for C9: the same render invocation started with the
shared counter at 1 (left over from outside the call) and at 0 emits
different text, so the counter is not state scoped to one render
invocation but global state shared across calls. -/
theorem writer_counter_counterexample :
    ¬ (renderOne ["a", ""] 1).1 = (renderOne ["a", ""] 0).1 := by decide

/-- C9 as amended: entering a nested structure increments the counter
and leaving restores it (a balanced body leaves the counter at its entry
value), every non-final non-empty emitted line is prefixed with four
spaces per counter level, and a render invocation hands the counter back
at its entry value — but the counter itself is a single process-wide
static shared across render calls, so the emitted text depends on the
value the counter holds at entry. -/
theorem writer_counter_amended :
    (∀ (α : Type) (body : Nat → α × Nat) (levels : Nat),
        (body (levels + 1)).2 = levels + 1 →
          scopedBlock body levels = ((body (levels + 1)).1, levels))
    ∧ (∀ (doc : List String) (off : Nat) (i : Nat),
        i + 1 < doc.length → doc.getD i "" ≠ "" →
          (addOffset doc off).getD i "" = spaces off ++ doc.getD i "")
    ∧ (∀ (doc : List String) (levels : Nat),
        renderOne doc levels = (process doc (levels + 1), levels)) := by
  refine ⟨?_, ?_, ?_⟩
  · intro α body levels h
    show ((body (levels + 1)).1, (body (levels + 1)).2 - 1) = ((body (levels + 1)).1, levels)
    rw [h, Nat.add_sub_cancel]
  · intro doc off
    induction doc with
    | nil =>
      intro i h hne
      simp at h
    | cons s rest ih =>
      intro i h hne
      cases rest with
      | nil =>
        simp only [List.length_cons, List.length_nil] at h
        omega
      | cons r rs =>
        cases i with
        | zero =>
          simp only [List.getD_cons_zero] at hne ⊢
          show ((if s = "" then s else spaces off ++ s) :: addOffset (r :: rs) off).getD 0 ""
            = spaces off ++ s
          rw [List.getD_cons_zero, if_neg hne]
        | succ i =>
          show ((if s = "" then s else spaces off ++ s) :: addOffset (r :: rs) off).getD
              (i + 1) "" = spaces off ++ (s :: r :: rs).getD (i + 1) ""
          rw [List.getD_cons_succ, List.getD_cons_succ]
          exact ih i (by simpa using h) (by simpa using hne)
  · intro doc levels
    rfl

/-- Witness for the amended C9: at nesting offset 4, the first non-empty
line is prefixed with four spaces. -/
theorem writer_counter_amended_witness :
    (0 + 1 < (["a", ""] : List String).length ∧ (["a", ""] : List String).getD 0 "" ≠ "")
    ∧ (addOffset ["a", ""] 4).getD 0 "" = spaces 4 ++ (["a", ""] : List String).getD 0 "" :=
  ⟨⟨by decide, by decide⟩, writer_counter_amended.2.1 ["a", ""] 4 0 (by decide) (by decide)⟩

/-- C10: the margins-scaling operator scales the horizontal margin by
the factor (truncated to unsigned) and returns vertical margin zero no
matter what the input's vertical margin was — scaling discards the
vertical component. -/
theorem windowMargins_scale :
    ∀ (m : WindowMargins) (f : ℚ), 0 ≤ f →
      (windowMarginsMul m f).horizontal = (Rat.floor ((m.horizontal : ℚ) * f)).toNat
      ∧ (windowMarginsMul m f).vertical = 0
      ∧ (∀ v : Nat, windowMarginsMul { horizontal := m.horizontal, vertical := v } f
          = windowMarginsMul m f) := by
  intro m f hf
  exact ⟨rfl, rfl, fun v => rfl⟩

/-- Witness for C10: scaling margins 7x+5y by three halves. -/
theorem windowMargins_scale_witness :
    0 ≤ mkRat 3 2
    ∧ ((windowMarginsMul ⟨7, 5⟩ (mkRat 3 2)).horizontal
          = (Rat.floor (((7 : Nat) : ℚ) * mkRat 3 2)).toNat
        ∧ (windowMarginsMul ⟨7, 5⟩ (mkRat 3 2)).vertical = 0
        ∧ (∀ v : Nat, windowMarginsMul ⟨7, v⟩ (mkRat 3 2)
            = windowMarginsMul ⟨7, 5⟩ (mkRat 3 2))) :=
  ⟨by decide, windowMargins_scale ⟨7, 5⟩ (mkRat 3 2) (by decide)⟩

end ContourConfig
